import Mathlib

/-!
Verification development for the pygeoflow pipeline-orchestration layer.

The repository ships only tests, examples and documentation for the
`geoflow` package; the package modules themselves (geoflow.crs.manager,
geoflow.validation.geometry, geoflow.core.pipeline, geoflow.core.provenance,
geoflow.io.loaders, geoflow.io.savers) are not among the sources.  Every
definition below is therefore a model of the missing module, built from the
specification's component design (spec.md §3, §4, §6, §7), with the unit
tests used only to pin signatures (e.g. field names) the spec leaves open.

External collaborators (the geometry/computational-geometry library and the
geo-dataframe abstraction) are out of scope per spec §1; they appear here as
the capability interface the spec describes: an opaque shape value with a
validity flag, and an abstract reprojection function passed as a parameter.
-/

namespace Geoflow

/-- Modelled from the spec: a coordinate reference system tag (glossary):
an identifying code plus whether the system is geographic (angular units)
or projected (linear units). -/
structure CRS where
  code : String
  geographic : Bool
deriving DecidableEq, Repr

/-- Modelled from the spec: a geometry value of the external geometry
library, abstracted (spec §1 treats geometry algorithms as out of scope) as
an opaque shape identifier together with the topological-validity flag the
validator consults. -/
structure Geometry where
  shape : Nat
  valid : Bool
deriving DecidableEq, Repr

/-- Modelled from the spec (§3 SpatialDataset): one row, a mapping of named
attributes plus exactly one geometry value. -/
structure Row where
  attrs : List (String × String)
  geom : Geometry
deriving DecidableEq, Repr

/-- Modelled from the spec (§3 SpatialDataset): an ordered sequence of rows
carrying one reference-system tag, possibly absent, plus the `source_file`
provenance tag attached by the loader (§6). -/
structure SpatialDataset where
  crs : Option CRS
  rows : List Row
  source_file : Option String
deriving DecidableEq, Repr

/-- Modelled from the spec (§7 error taxonomy): the failure kinds surfaced
to the caller, each carrying the information the spec names, plus the
missing-file failure observed of the I/O collaborator
(src/tests/unit/test_io.py::test_load_missing_file). -/
inductive GeoflowError where
  | missingReferenceSystem (which : String)
  | crsMismatch (crs1 crs2 : String)
  | geographicOperationRejected (operation : String)
  | invalidGeometry (count percentage : Nat)
  | unknownRepairMethod (method : String)
  | unsupportedFormat (format : String)
  | fileNotFound (path : String)
deriving DecidableEq, Repr

/-- Modelled from the spec (§4.1): reprojection of a whole dataset to a
target system, delegating per-geometry coordinate transformation to the
external library (here the parameter `reproject`); the output carries the
target reference system. -/
def SpatialDataset.to_crs (d : SpatialDataset) (reproject : CRS → Geometry → Geometry)
    (t : CRS) : SpatialDataset :=
  { crs := some t
    rows := d.rows.map (fun r => { attrs := r.attrs, geom := reproject t r.geom })
    source_file := d.source_file }

namespace CRSManager

/-- Modelled from the spec (§4.1 `ensure_common_crs`): fails with
MissingReferenceSystem if either input has no reference system; returns the
inputs unchanged when both systems are identical; fails with CRSMismatch
naming both systems when they differ and no target is supplied; otherwise
reprojects whichever input is not already in the target system and returns
both in that system.  `reproject` is the external library's coordinate
transformation. -/
def ensure_common_crs (reproject : CRS → Geometry → Geometry)
    (a b : SpatialDataset) (target_crs : Option CRS) :
    Except GeoflowError (SpatialDataset × SpatialDataset) :=
  match a.crs, b.crs with
  | none, _ => .error (.missingReferenceSystem "first dataset has no CRS")
  | some _, none => .error (.missingReferenceSystem "second dataset has no CRS")
  | some ca, some cb =>
    if ca = cb then
      .ok (a, b)
    else
      match target_crs with
      | none => .error (.crsMismatch ca.code cb.code)
      | some t =>
        .ok ((if ca = t then a else a.to_crs reproject t),
             (if cb = t then b else b.to_crs reproject t))

/-- Modelled from the spec (§4.1 `is_geographic`): true iff the system
measures position in angular units. -/
def is_geographic (c : CRS) : Bool := c.geographic

end CRSManager

/-- Modelled from the spec (§4.2, method "make_valid"): reconstructs a
topologically valid geometry; the reconstruction itself is the external
library's, abstracted as producing a valid geometry with the same shape
value, a no-op on already-valid input (spec §9: re-applying repair to a
valid geometry must be a no-op). -/
def Geometry.make_valid (g : Geometry) : Geometry :=
  if g.valid then g else { shape := g.shape, valid := true }

/-- Modelled from the spec (§4.2, method "buffer"): repairs via a
zero-distance dilation/erosion trick; coarser, may slightly perturb shape —
abstracted as producing a valid geometry with a perturbed shape value, a
no-op on already-valid input. -/
def Geometry.buffer0 (g : Geometry) : Geometry :=
  if g.valid then g else { shape := g.shape + 1, valid := true }

/-- Modelled from the spec (§4.2): the number of rows whose geometry fails
the validity predicate (the `invalid_count` of the validation report). -/
def SpatialDataset.invalidCount (d : SpatialDataset) : Nat :=
  (d.rows.filter (fun r => !r.geom.valid)).length

/-- Modelled from the spec (§4.2): whether any row's geometry fails the
validity predicate. -/
def SpatialDataset.hasInvalid (d : SpatialDataset) : Bool :=
  d.rows.any (fun r => !r.geom.valid)

namespace GeometryValidator

/-- Modelled from the spec (§4.2 `fix_invalid`): repairs every invalid
geometry, with `"make_valid"` and `"buffer"` the recognized strategies; an
unknown method fails with UnknownRepairMethod.  Row order, row count and
attribute values are untouched; only geometry values are rewritten. -/
def fix_invalid (d : SpatialDataset) (method : String) :
    Except GeoflowError SpatialDataset :=
  if method = "make_valid" then
    .ok { crs := d.crs
          rows := d.rows.map (fun r => { attrs := r.attrs, geom := r.geom.make_valid })
          source_file := d.source_file }
  else if method = "buffer" then
    .ok { crs := d.crs
          rows := d.rows.map (fun r => { attrs := r.attrs, geom := r.geom.buffer0 })
          source_file := d.source_file }
  else
    .error (.unknownRepairMethod method)

end GeometryValidator

/-- Modelled from the spec (§4.2 `validate_geometry`): if `raise_on_invalid`
and any invalid geometry exists, fails with InvalidGeometry (carrying count
and percentage) before any repair is attempted — precedence over
`auto_fix`; else if `auto_fix`, returns `fix_invalid(dataset, method)`;
else returns the dataset unchanged, possibly still containing invalid
geometries. -/
def validate_geometry (d : SpatialDataset) (auto_fix raise_on_invalid : Bool)
    (method : String) : Except GeoflowError SpatialDataset :=
  if raise_on_invalid && d.hasInvalid then
    .error (.invalidGeometry d.invalidCount (d.invalidCount * 100 / d.rows.length))
  else if auto_fix then
    GeometryValidator.fix_invalid d method
  else
    .ok d

/-- A concrete bow-tie fixture: one valid point, one self-intersecting
(invalid) polygon, one valid point, mirroring the tests' `invalid_gdf`. -/
def bowtieDataset : SpatialDataset :=
  ⟨some ⟨"EPSG:4326", true⟩,
   [⟨[("id", "1")], ⟨0, true⟩⟩, ⟨[("id", "2")], ⟨7, false⟩⟩,
    ⟨[("id", "3")], ⟨2, true⟩⟩],
   none⟩

/-- Modelled from the spec (§3): the immutable Task configuration struct
`{name, warn_geographic, strict_crs, validate_geometries, validate_crs}`
created at wrap time. -/
structure TaskConfig where
  name : String
  warn_geographic : Bool
  strict_crs : Bool
  validate_geometries : Bool
  validate_crs : Bool
deriving DecidableEq, Repr

/-- Modelled from the spec (§4.3, §9): a Task value holding the wrapped
transformation function and its immutable configuration.  The claims under
study concern single-input tasks, so the wrapped function takes the primary
geometry-bearing argument. -/
structure Task (β : Type) where
  cfg : TaskConfig
  f : SpatialDataset → β

/-- Modelled from the spec (§4.3 step 3): the primary input's reference
system is geographic; a dataset without a reference system is not
geographic. -/
def datasetIsGeographic (d : SpatialDataset) : Bool :=
  match d.crs with
  | some c => CRSManager.is_geographic c
  | none => false

/-- Modelled from the spec (§4.3): calling a Task runs the pre-checks and
then delegates.  Step 1: with `validate_geometries`, an invalid input emits
a non-fatal advisory.  Step 3: with `strict_crs` on a geographic input the
call fails with GeographicOperationRejected naming the operation; else with
`warn_geographic` it emits a non-fatal advisory.  Step 4: the wrapped
function is invoked on the original argument and its result returned
verbatim.  The result pairs the outcome with the advisories emitted. -/
def Task.call {β : Type} (t : Task β) (d : SpatialDataset) :
    Except GeoflowError β × List String :=
  let w1 : List String :=
    if t.cfg.validate_geometries && d.hasInvalid then
      [t.cfg.name ++ ": input contains invalid geometries"]
    else []
  if t.cfg.strict_crs && datasetIsGeographic d then
    (.error (.geographicOperationRejected t.cfg.name), w1)
  else if t.cfg.warn_geographic && datasetIsGeographic d then
    (.ok (t.f d), w1 ++ [t.cfg.name ++ ": operating on a geographic CRS"])
  else
    (.ok (t.f d), w1)

/-- Modelled from the spec (§3 OperationRecord): the operation type,
"task" or "pipeline". -/
inductive OpType where
  | task
  | pipeline
deriving DecidableEq, Repr

/-- Modelled from the spec (§3 OperationRecord): operation name, type,
string-keyed parameters, start time, execution time set once on completion,
optional error string.  Timestamps are abstract clock readings (Nat). -/
structure OperationRecord where
  operation_name : String
  operation_type : OpType
  parameters : List (String × String)
  start_time : Nat
  execution_time : Option Nat
  error : Option String
deriving DecidableEq, Repr

/-- Modelled from the spec (§3, §9): the immutable process-environment
snapshot taken at tracker construction, with the fields the tests name. -/
structure Environment where
  python_version : String
  geopandas_version : String
  platform_tag : String
deriving DecidableEq, Repr

/-- Modelled from the spec (§3, §4.5 ProvenanceTracker): pipeline name,
start time, environment snapshot, end time absent until finalize, ordered
sequence of operation records appended in strict call order. -/
structure ProvenanceTracker where
  pipeline_name : String
  start_time : Nat
  environment : Environment
  end_time : Option Nat
  records : List OperationRecord
deriving DecidableEq, Repr

/-- Replace the record at an index, leaving the rest of the ledger
untouched (the in-place mutation of one OperationRecord). -/
def modifyRecordAt (l : List OperationRecord) (i : Nat)
    (f : OperationRecord → OperationRecord) : List OperationRecord :=
  match l, i with
  | [], _ => []
  | x :: xs, 0 => f x :: xs
  | x :: xs, Nat.succ n => x :: modifyRecordAt xs n f

/-- Modelled from the spec (§3, §4.5): `start_operation` appends a fresh
record (no execution time, no error) and hands it back — here by its index
in the ledger. -/
def ProvenanceTracker.start_operation (t : ProvenanceTracker) (name : String)
    (ty : OpType) (params : List (String × String)) (now : Nat) :
    ProvenanceTracker × Nat :=
  ({ pipeline_name := t.pipeline_name
     start_time := t.start_time
     environment := t.environment
     end_time := t.end_time
     records := t.records ++
       [{ operation_name := name, operation_type := ty, parameters := params
          start_time := now, execution_time := none, error := none }] },
   t.records.length)

/-- Modelled from the spec (§3, §4.5): `complete_operation` sets the
record's execution time (elapsed seconds). -/
def ProvenanceTracker.complete_operation (t : ProvenanceTracker) (idx : Nat)
    (elapsed : Nat) : ProvenanceTracker :=
  { pipeline_name := t.pipeline_name
    start_time := t.start_time
    environment := t.environment
    end_time := t.end_time
    records := modifyRecordAt t.records idx
      (fun r => { operation_name := r.operation_name
                  operation_type := r.operation_type
                  parameters := r.parameters
                  start_time := r.start_time
                  execution_time := some elapsed
                  error := r.error }) }

/-- Modelled from the spec (§3, §4.5): `record_error` stores the
exception's message on the record. -/
def ProvenanceTracker.record_error (t : ProvenanceTracker) (idx : Nat)
    (msg : String) : ProvenanceTracker :=
  { pipeline_name := t.pipeline_name
    start_time := t.start_time
    environment := t.environment
    end_time := t.end_time
    records := modifyRecordAt t.records idx
      (fun r => { operation_name := r.operation_name
                  operation_type := r.operation_type
                  parameters := r.parameters
                  start_time := r.start_time
                  execution_time := r.execution_time
                  error := some msg }) }

/-- Modelled from the spec (§4.5): `finalize` transitions open → finalized,
setting `end_time` at most once. -/
def ProvenanceTracker.finalize (t : ProvenanceTracker) (now : Nat) :
    ProvenanceTracker :=
  if t.end_time.isSome then t
  else
    { pipeline_name := t.pipeline_name
      start_time := t.start_time
      environment := t.environment
      end_time := some now
      records := t.records }

/-- Modelled from the spec (§8): `failed_operations` is the count of
records with a non-empty error. -/
def ProvenanceTracker.failed_operations (t : ProvenanceTracker) : Nat :=
  (t.records.filter (fun r => r.error.isSome)).length

/-- Modelled from the spec (§6): `total_execution_time` of the ledger,
populated once the tracker is finalized. -/
def ProvenanceTracker.total_execution_time (t : ProvenanceTracker) :
    Option Nat :=
  t.end_time.map (fun e => e - t.start_time)

/-- Modelled from the spec (§6 Provenance JSON): one serialized operation
entry `{operation_name, operation_type, parameters, execution_time,
error}`. -/
structure OperationDict where
  operation_name : String
  operation_type : String
  parameters : List (String × String)
  execution_time : Option Nat
  error : Option String
deriving DecidableEq, Repr

/-- Modelled from the spec (§6 Provenance JSON): the serialized ledger
`{pipeline_name, start_time, end_time, total_execution_time, environment,
operations}`.  JSON text encoding of this record is lossless, so files are
modelled at this level. -/
structure ProvenanceDict where
  pipeline_name : String
  start_time : Nat
  end_time : Option Nat
  total_execution_time : Option Nat
  environment : Environment
  operations : List OperationDict
deriving DecidableEq, Repr

/-- The serialized spelling of an operation type. -/
def OpType.toStr : OpType → String
  | .task => "task"
  | .pipeline => "pipeline"

/-- Parse an operation type back from its serialized spelling. -/
def OpType.ofStr (s : String) : OpType :=
  if s = "pipeline" then .pipeline else .task

/-- Modelled from the spec (§4.5, §6 `to_dict`): serialize the full
ledger. -/
def ProvenanceTracker.to_dict (t : ProvenanceTracker) : ProvenanceDict :=
  { pipeline_name := t.pipeline_name
    start_time := t.start_time
    end_time := t.end_time
    total_execution_time := t.total_execution_time
    environment := t.environment
    operations := t.records.map
      (fun r => { operation_name := r.operation_name
                  operation_type := r.operation_type.toStr
                  parameters := r.parameters
                  execution_time := r.execution_time
                  error := r.error }) }

/-- Modelled from the spec (§4.5 `load`): reconstruct a read-only tracker
from a serialized ledger (per-record start times are not part of the §6
JSON, so the reconstructed records carry the ledger's start time). -/
def ProvenanceTracker.load_dict (d : ProvenanceDict) : ProvenanceTracker :=
  { pipeline_name := d.pipeline_name
    start_time := d.start_time
    environment := d.environment
    end_time := d.end_time
    records := d.operations.map
      (fun o => { operation_name := o.operation_name
                  operation_type := OpType.ofStr o.operation_type
                  parameters := o.parameters
                  start_time := d.start_time
                  execution_time := o.execution_time
                  error := o.error }) }

/-- Modelled from the spec (§4.5 `save`): persist the serialized ledger at
a path; the file system is modelled as an association list from paths to
serialized ledgers. -/
def ProvenanceTracker.save (t : ProvenanceTracker)
    (fs : List (String × ProvenanceDict)) (path : String) :
    List (String × ProvenanceDict) :=
  (path, t.to_dict) :: fs

/-- Modelled from the spec (§4.5 `load`): read a serialized ledger back
from the file system and reconstruct a tracker. -/
def ProvenanceTracker.load (fs : List (String × ProvenanceDict))
    (path : String) : Option ProvenanceTracker :=
  (fs.lookup path).map ProvenanceTracker.load_dict

/-- Modelled from the spec (§4.4, §5, §9): an exception value, preserved
with its original identity — kind and message — across the provenance
layer. -/
structure Exc where
  ty : String
  msg : String
deriving DecidableEq, Repr

/-- Modelled from the spec (§3): the immutable Pipeline configuration
struct `{name, description, auto_save_provenance, provenance_dir}`. -/
structure PipelineConfig where
  name : String
  description : String
  auto_save_provenance : Bool
  provenance_dir : String
deriving DecidableEq, Repr

/-- Modelled from the spec (§2, §4.4, §9): a Pipeline value holding the
wrapped top-level function and its configuration; fallible execution of
the wrapped body is embedded as an `Except` result.  `summarize` is the
bound-arguments summary recorded as the operation's parameters. -/
structure GeoPipeline (α β : Type) where
  cfg : PipelineConfig
  g : α → Except Exc β
  summarize : α → List (String × String)

/-- Modelled from the spec (§3 PipelineResult): bundles the pipeline's
output value with its ProvenanceTracker; read-only after construction. -/
structure PipelineResult (β : Type) where
  result : β
  provenance : ProvenanceTracker

/-- Modelled from the spec (§4.4 plain call): executes the wrapped body
directly, zero tracking, returning whatever it returns. -/
def GeoPipeline.call {α β : Type} (p : GeoPipeline α β) (args : α) :
    Except Exc β :=
  p.g args

/-- Modelled from the spec (§4.4 tracked call `.run()`): construct a fresh
tracker with the environment snapshot, start the one top-level operation
with the bound-arguments summary, execute the same body; on success
complete the record with elapsed time, finalize, and return a
PipelineResult; on exception record the error, still complete the record
with elapsed time, finalize, and re-raise the original exception unchanged.
`t0` and `t1` are the abstract clock readings at entry and at completion;
the optional auto-save persistence step does not affect the outcome or the
tracker and is not modelled.  Both the outcome and the run's tracker are
returned so the ledger of a failed run remains observable. -/
def GeoPipeline.run {α β : Type} (p : GeoPipeline α β) (args : α)
    (env : Environment) (t0 t1 : Nat) :
    Except Exc (PipelineResult β) × ProvenanceTracker :=
  let tracker : ProvenanceTracker :=
    { pipeline_name := p.cfg.name, start_time := t0, environment := env
      end_time := none, records := [] }
  let started := tracker.start_operation p.cfg.name .pipeline (p.summarize args) t0
  match p.g args with
  | .ok v =>
    let tracker := (started.fst.complete_operation started.snd (t1 - t0)).finalize t1
    (.ok { result := v, provenance := tracker }, tracker)
  | .error e =>
    let tracker :=
      (((started.fst.record_error started.snd e.msg).complete_operation
        started.snd (t1 - t0)).finalize t1)
    (.error e, tracker)

/-- Modelled from the spec (§6, and the I/O tests): the formats the
excluded I/O collaborator supports. -/
def supported_formats : List String := ["geojson", "gpkg", "shp"]

/-- Characters of a reversed string up to (excluding) the first separator:
the trailing segment of the original string. -/
def takeUntilSep (sep : Char) : List Char → List Char
  | [] => []
  | c :: rest => if c = sep then [] else c :: takeUntilSep sep rest

/-- The file extension of a path (text after the last dot; the whole path
when it has no dot). -/
def extOf (path : String) : String :=
  ⟨(takeUntilSep '.' path.data.reverse).reverse⟩

/-- The file name of a path (text after the last slash). -/
def basenameOf (path : String) : String :=
  ⟨(takeUntilSep '/' path.data.reverse).reverse⟩

namespace DataLoader

/-- Modelled from the spec (§6): the loader collaborator returns a
SpatialDataset annotated with a `source_file` provenance tag; a path naming
no existing file fails with FileNotFoundError before any format check
(src/tests/unit/test_io.py::test_load_missing_file), and an extension
outside the supported set fails with UnsupportedFormat.  The file system is
an association list from paths to stored datasets. -/
def load (fs : List (String × SpatialDataset)) (path : String) :
    Except GeoflowError SpatialDataset :=
  match fs.lookup path with
  | none => .error (.fileNotFound path)
  | some d =>
    if supported_formats.contains (extOf path) then
      .ok { crs := d.crs, rows := d.rows, source_file := some path }
    else
      .error (.unsupportedFormat (extOf path))

end DataLoader

/-- Modelled from the spec (§6): a saved data artifact — the dataset, plus
the embedded-provenance table rows `(timestamp, provenance_json)` used by
formats that support auxiliary tables. -/
structure SavedArtifact where
  dataset : SpatialDataset
  embedded_provenance : List (Nat × ProvenanceDict)
deriving DecidableEq, Repr

/-- Modelled from the spec (§6): what a file on disk holds — a data
artifact, or a provenance sidecar wrapping the ledger as
`{data_file, saved_at, provenance}`. -/
inductive FileContent where
  | artifact (a : SavedArtifact)
  | provenance_sidecar (data_file : String) (saved_at : Nat)
      (ledger : ProvenanceDict)
deriving DecidableEq, Repr

namespace DataSaver

/-- Modelled from the spec (§6): the saver collaborator accepts a dataset,
a destination and an optional provenance ledger.  An unsupported extension
fails with UnsupportedFormat.  With no ledger, only the data artifact is
written.  With a ledger, a format with auxiliary tables (GeoPackage) embeds
it as a `(timestamp, provenance_json)` row; other formats write the sidecar
`<output_path>.provenance.json` wrapping the ledger as
`{data_file, saved_at, provenance}`. -/
def save (fs : List (String × FileContent)) (d : SpatialDataset)
    (path : String) (now : Nat) (provenance : Option ProvenanceDict) :
    Except GeoflowError (List (String × FileContent)) :=
  if supported_formats.contains (extOf path) then
    match provenance with
    | none =>
      .ok ((path, .artifact { dataset := d, embedded_provenance := [] }) :: fs)
    | some p =>
      if extOf path = "gpkg" then
        .ok ((path, .artifact { dataset := d, embedded_provenance := [(now, p)] }) :: fs)
      else
        .ok ((path ++ ".provenance.json",
              .provenance_sidecar (basenameOf path) now p) ::
             (path, .artifact { dataset := d, embedded_provenance := [] }) :: fs)
  else
    .error (.unsupportedFormat (extOf path))

end DataSaver

/-- A concrete environment snapshot fixture. -/
def envFixture : Environment :=
  { python_version := "3.11.0", geopandas_version := "0.14.0"
    platform_tag := "linux" }

/-- A one-point dataset in a geographic system, mirroring the tests'
EPSG:4326 fixtures. -/
def geoPointDataset : SpatialDataset :=
  ⟨some ⟨"EPSG:4326", true⟩, [⟨[("id", "1")], ⟨0, true⟩⟩], none⟩

/-- A strict-CRS buffer task fixture (test_spatial_task_strict_crs). -/
def taskStrict : Task Nat :=
  { cfg := { name := "strict_buffer", warn_geographic := false
             strict_crs := true, validate_geometries := false
             validate_crs := false }
    f := fun d => d.rows.length }

/-- A warn-on-geographic buffer task fixture
(test_spatial_task_warn_geographic). -/
def taskWarn : Task Nat :=
  { cfg := { name := "buffer_task", warn_geographic := true
             strict_crs := false, validate_geometries := false
             validate_crs := false }
    f := fun d => d.rows.length }

/-- A pipeline fixture whose body succeeds. -/
def pipelineOk : GeoPipeline Nat Nat :=
  { cfg := { name := "tracked_pipeline", description := ""
             auto_save_provenance := false, provenance_dir := "" }
    g := fun n => .ok (n + 1)
    summarize := fun n => [("n", toString n)] }

/-- A pipeline fixture whose body raises, mirroring
test_pipeline_error_handling. -/
def pipelineFail : GeoPipeline Nat Nat :=
  { cfg := { name := "error_test", description := ""
             auto_save_provenance := false, provenance_dir := "" }
    g := fun _ => .error ⟨"ValueError", "Intentional error for testing"⟩
    summarize := fun n => [("n", toString n)] }

/-- A finalized tracker fixture with one completed record, mirroring
test_provenance_save_and_load. -/
def trackerFixture : ProvenanceTracker :=
  { pipeline_name := "test_pipeline", start_time := 5
    environment := envFixture, end_time := some 7
    records := [{ operation_name := "op1", operation_type := .task
                  parameters := [], start_time := 5
                  execution_time := some 1, error := none }] }

end Geoflow

namespace Geoflow

/-- C4: a dataset pair with identical reference systems passes through
`ensure_common_crs` unchanged — same geometries, same reference system, no
reprojection — for any target argument and any reprojection backend. -/
theorem ensure_common_crs_identical_is_identity
    (reproject : CRS → Geometry → Geometry) (a b : SpatialDataset) (c : CRS)
    (target : Option CRS)
    (ha : a.crs = some c) (hb : b.crs = some c) :
    CRSManager.ensure_common_crs reproject a b target = .ok (a, b) := by
  unfold CRSManager.ensure_common_crs
  rw [ha, hb]
  simp

/-- Concrete instance of `ensure_common_crs_identical_is_identity`: both
datasets in EPSG:4326 are returned unchanged. -/
theorem ensure_common_crs_identical_is_identity_witness :
    (⟨some ⟨"EPSG:4326", true⟩, [⟨[("id", "1")], ⟨0, true⟩⟩], none⟩ :
        SpatialDataset).crs = some ⟨"EPSG:4326", true⟩ ∧
    CRSManager.ensure_common_crs (fun _ g => g)
        ⟨some ⟨"EPSG:4326", true⟩, [⟨[("id", "1")], ⟨0, true⟩⟩], none⟩
        ⟨some ⟨"EPSG:4326", true⟩, [⟨[("id", "2")], ⟨1, true⟩⟩], none⟩
        none =
      .ok (⟨some ⟨"EPSG:4326", true⟩, [⟨[("id", "1")], ⟨0, true⟩⟩], none⟩,
           ⟨some ⟨"EPSG:4326", true⟩, [⟨[("id", "2")], ⟨1, true⟩⟩], none⟩) :=
  ⟨rfl,
   ensure_common_crs_identical_is_identity (fun _ g => g)
     ⟨some ⟨"EPSG:4326", true⟩, [⟨[("id", "1")], ⟨0, true⟩⟩], none⟩
     ⟨some ⟨"EPSG:4326", true⟩, [⟨[("id", "2")], ⟨1, true⟩⟩], none⟩
     ⟨"EPSG:4326", true⟩ none rfl rfl⟩

/-- C3: when the two reference systems both exist but differ,
`ensure_common_crs` without a target fails with CRSMismatch naming both
systems, while with a supplied target it succeeds and both outputs carry
exactly that target system. -/
theorem ensure_common_crs_mismatch_gate
    (reproject : CRS → Geometry → Geometry) (a b : SpatialDataset) (ca cb : CRS)
    (ha : a.crs = some ca) (hb : b.crs = some cb) (hne : ca ≠ cb) :
    CRSManager.ensure_common_crs reproject a b none =
        .error (.crsMismatch ca.code cb.code) ∧
    ∀ t : CRS, ∃ a' b',
      CRSManager.ensure_common_crs reproject a b (some t) = .ok (a', b') ∧
      a'.crs = some t ∧ b'.crs = some t := by
  constructor
  · unfold CRSManager.ensure_common_crs
    rw [ha, hb]
    simp [hne]
  · intro t
    refine ⟨(if ca = t then a else a.to_crs reproject t),
            (if cb = t then b else b.to_crs reproject t), ?_, ?_, ?_⟩
    · unfold CRSManager.ensure_common_crs
      rw [ha, hb]
      simp [hne]
    · by_cases h : ca = t
      · rw [if_pos h, ha, h]
      · rw [if_neg h]; rfl
    · by_cases h : cb = t
      · rw [if_pos h, hb, h]
      · rw [if_neg h]; rfl

/-- Concrete instance of `ensure_common_crs_mismatch_gate`: WGS84 against
UTM 10N fails with CRSMismatch when no target is given, and succeeds with
both outputs in EPSG:3857 when that target is supplied. -/
theorem ensure_common_crs_mismatch_gate_witness :
    CRSManager.ensure_common_crs (fun _ g => g)
        ⟨some ⟨"EPSG:4326", true⟩, [⟨[("id", "1")], ⟨0, true⟩⟩], none⟩
        ⟨some ⟨"EPSG:32610", false⟩, [⟨[("id", "2")], ⟨1, true⟩⟩], none⟩
        none =
      .error (.crsMismatch "EPSG:4326" "EPSG:32610") ∧
    ∀ t : CRS, ∃ a' b',
      CRSManager.ensure_common_crs (fun _ g => g)
          ⟨some ⟨"EPSG:4326", true⟩, [⟨[("id", "1")], ⟨0, true⟩⟩], none⟩
          ⟨some ⟨"EPSG:32610", false⟩, [⟨[("id", "2")], ⟨1, true⟩⟩], none⟩
          (some t) = .ok (a', b') ∧
      a'.crs = some t ∧ b'.crs = some t :=
  ensure_common_crs_mismatch_gate (fun _ g => g)
    ⟨some ⟨"EPSG:4326", true⟩, [⟨[("id", "1")], ⟨0, true⟩⟩], none⟩
    ⟨some ⟨"EPSG:32610", false⟩, [⟨[("id", "2")], ⟨1, true⟩⟩], none⟩
    ⟨"EPSG:4326", true⟩ ⟨"EPSG:32610", false⟩ rfl rfl (by decide)

/-- Repairing a geometry with the "make_valid" strategy yields a valid
geometry. -/
theorem Geometry.make_valid_valid (g : Geometry) : g.make_valid.valid = true := by
  unfold Geometry.make_valid
  split
  · next h => exact h
  · rfl

/-- Repairing a geometry with the "buffer" strategy yields a valid
geometry. -/
theorem Geometry.buffer0_valid (g : Geometry) : g.buffer0.valid = true := by
  unfold Geometry.buffer0
  split
  · next h => exact h
  · rfl

/-- Rewriting only the geometry of every row leaves the attribute columns
untouched. -/
theorem map_attrs_geom_update (f : Geometry → Geometry) (rows : List Row) :
    (rows.map (fun r => ({ attrs := r.attrs, geom := f r.geom } : Row))).map
        Row.attrs = rows.map Row.attrs := by
  induction rows with
  | nil => rfl
  | cons r rs ih => simp only [List.map_cons, ih]

/-- C5: for either recognized repair method, `fix_invalid` succeeds and
returns a dataset whose every geometry is valid, with the same row count,
the same attribute values row by row, and the same reference system — only
geometry values change. -/
theorem fix_invalid_repairs_and_preserves_rows (d : SpatialDataset)
    (method : String) (hm : method = "make_valid" ∨ method = "buffer") :
    ∃ d', GeometryValidator.fix_invalid d method = .ok d' ∧
      (∀ r ∈ d'.rows, r.geom.valid = true) ∧
      d'.rows.length = d.rows.length ∧
      d'.rows.map Row.attrs = d.rows.map Row.attrs ∧
      d'.crs = d.crs := by
  rcases hm with h | h <;> subst h
  · refine ⟨{ crs := d.crs
              rows := d.rows.map
                (fun r => { attrs := r.attrs, geom := r.geom.make_valid })
              source_file := d.source_file },
      by simp [GeometryValidator.fix_invalid], ?_, ?_, ?_, rfl⟩
    · intro r hr
      rw [List.mem_map] at hr
      obtain ⟨s, _, rfl⟩ := hr
      exact Geometry.make_valid_valid s.geom
    · exact List.length_map _ _
    · exact map_attrs_geom_update Geometry.make_valid d.rows
  · refine ⟨{ crs := d.crs
              rows := d.rows.map
                (fun r => { attrs := r.attrs, geom := r.geom.buffer0 })
              source_file := d.source_file },
      by simp [GeometryValidator.fix_invalid], ?_, ?_, ?_, rfl⟩
    · intro r hr
      rw [List.mem_map] at hr
      obtain ⟨s, _, rfl⟩ := hr
      exact Geometry.buffer0_valid s.geom
    · exact List.length_map _ _
    · exact map_attrs_geom_update Geometry.buffer0 d.rows

/-- Concrete instance of `fix_invalid_repairs_and_preserves_rows`: repairing
the bow-tie fixture with "make_valid" yields an all-valid dataset with the
same rows and attributes. -/
theorem fix_invalid_repairs_and_preserves_rows_witness :
    ("make_valid" = "make_valid" ∨ "make_valid" = "buffer") ∧
    ∃ d', GeometryValidator.fix_invalid bowtieDataset "make_valid" = .ok d' ∧
      (∀ r ∈ d'.rows, r.geom.valid = true) ∧
      d'.rows.length = bowtieDataset.rows.length ∧
      d'.rows.map Row.attrs = bowtieDataset.rows.map Row.attrs ∧
      d'.crs = bowtieDataset.crs :=
  ⟨Or.inl rfl,
   fix_invalid_repairs_and_preserves_rows bowtieDataset "make_valid" (Or.inl rfl)⟩

/-- C6: `validate_geometry` dispatch — when `raise_on_invalid` is set and an
invalid geometry exists it fails with InvalidGeometry regardless of
`auto_fix` (precedence, no repair attempted); otherwise with `auto_fix` set
it returns exactly `fix_invalid(dataset, method)`; otherwise it returns the
dataset unchanged. -/
theorem validate_geometry_dispatch (d : SpatialDataset) (af ri : Bool)
    (method : String) :
    (ri = true → d.hasInvalid = true →
      validate_geometry d af ri method =
        .error (.invalidGeometry d.invalidCount
          (d.invalidCount * 100 / d.rows.length))) ∧
    ((ri && d.hasInvalid) = false → af = true →
      validate_geometry d af ri method = GeometryValidator.fix_invalid d method) ∧
    ((ri && d.hasInvalid) = false → af = false →
      validate_geometry d af ri method = .ok d) := by
  refine ⟨?_, ?_, ?_⟩
  · intro h1 h2
    simp [validate_geometry, h1, h2]
  · intro h1 h2
    simp [validate_geometry, h1, h2]
  · intro h1 h2
    simp [validate_geometry, h1, h2]

/-- Concrete instance of `validate_geometry_dispatch`: on the bow-tie
fixture, raising takes effect when requested, auto-fix delegates to
`fix_invalid`, and the no-option call returns the input unchanged. -/
theorem validate_geometry_dispatch_witness :
    validate_geometry bowtieDataset true true "make_valid" =
      .error (.invalidGeometry bowtieDataset.invalidCount
        (bowtieDataset.invalidCount * 100 / bowtieDataset.rows.length)) ∧
    validate_geometry bowtieDataset true false "buffer" =
      GeometryValidator.fix_invalid bowtieDataset "buffer" ∧
    validate_geometry bowtieDataset false false "make_valid" =
      .ok bowtieDataset :=
  ⟨(validate_geometry_dispatch bowtieDataset true true "make_valid").1 rfl
     (by decide),
   (validate_geometry_dispatch bowtieDataset true false "buffer").2.1
     (by decide) rfl,
   (validate_geometry_dispatch bowtieDataset false false "make_valid").2.2
     (by decide) rfl⟩

/-- C7: on a primary input whose reference system is geographic, a Task
configured with `strict_crs` fails with GeographicOperationRejected naming
the operation, while one configured with `warn_geographic` (and not
`strict_crs`) emits a non-fatal advisory and still returns the wrapped
function's result. -/
theorem task_geographic_gate {β : Type} (t : Task β) (d : SpatialDataset)
    (c : CRS) (hc : d.crs = some c) (hg : c.geographic = true) :
    (t.cfg.strict_crs = true →
      (t.call d).fst = .error (.geographicOperationRejected t.cfg.name)) ∧
    (t.cfg.strict_crs = false → t.cfg.warn_geographic = true →
      (t.call d).fst = .ok (t.f d) ∧
      (t.cfg.name ++ ": operating on a geographic CRS") ∈ (t.call d).snd) := by
  have hgeo : datasetIsGeographic d = true := by
    simp [datasetIsGeographic, hc, CRSManager.is_geographic, hg]
  refine ⟨?_, ?_⟩
  · intro hs
    simp [Task.call, hgeo, hs]
  · intro hs hw
    refine ⟨?_, ?_⟩
    · simp [Task.call, hgeo, hs, hw]
    · simp [Task.call, hgeo, hs, hw]

/-- Concrete instance of `task_geographic_gate`: on a geographic point
dataset the strict task is rejected and the warning task proceeds with an
advisory. -/
theorem task_geographic_gate_witness :
    (taskStrict.call geoPointDataset).fst =
      .error (.geographicOperationRejected taskStrict.cfg.name) ∧
    (taskWarn.call geoPointDataset).fst = .ok (taskWarn.f geoPointDataset) ∧
    (taskWarn.cfg.name ++ ": operating on a geographic CRS") ∈
      (taskWarn.call geoPointDataset).snd :=
  ⟨(task_geographic_gate taskStrict geoPointDataset ⟨"EPSG:4326", true⟩
      rfl rfl).1 rfl,
   ((task_geographic_gate taskWarn geoPointDataset ⟨"EPSG:4326", true⟩
      rfl rfl).2 rfl rfl).1,
   ((task_geographic_gate taskWarn geoPointDataset ⟨"EPSG:4326", true⟩
      rfl rfl).2 rfl rfl).2⟩

/-- C1: whenever the wrapped pipeline body succeeds, the `result` payload
of the PipelineResult returned by the tracked call equals the value
returned by the plain call — tracking changes nothing about the data
result. -/
theorem run_result_matches_plain_call {α β : Type} (p : GeoPipeline α β)
    (args : α) (env : Environment) (t0 t1 : Nat) (v : β)
    (h : p.call args = .ok v) :
    ∃ pr : PipelineResult β,
      (p.run args env t0 t1).fst = .ok pr ∧ pr.result = v := by
  have hg : p.g args = .ok v := h
  refine ⟨{ result := v
            provenance :=
              (((((⟨p.cfg.name, t0, env, none, []⟩ :
                ProvenanceTracker).start_operation p.cfg.name .pipeline
                  (p.summarize args) t0).fst.complete_operation
                ((⟨p.cfg.name, t0, env, none, []⟩ :
                  ProvenanceTracker).start_operation p.cfg.name .pipeline
                    (p.summarize args)
                  t0).snd (t1 - t0)).finalize t1)) }, ?_, rfl⟩
  simp only [GeoPipeline.run, hg]

/-- Concrete instance of `run_result_matches_plain_call`: the successful
fixture pipeline yields payload 4 from `.run 3` exactly as the plain call
does. -/
theorem run_result_matches_plain_call_witness :
    pipelineOk.call 3 = .ok 4 ∧
    ∃ pr : PipelineResult Nat,
      (pipelineOk.run 3 envFixture 10 12).fst = .ok pr ∧ pr.result = 4 :=
  ⟨rfl, run_result_matches_plain_call pipelineOk 3 envFixture 10 12 4 rfl⟩

/-- C2: when the wrapped pipeline body raises, the tracked call re-raises
the same exception unchanged (same kind and message), after recording the
error on the operation record, completing it with the elapsed time, and
finalizing the tracker — so the run's ledger has one failed operation and
a populated total execution time. -/
theorem run_reraises_and_records_error {α β : Type} (p : GeoPipeline α β)
    (args : α) (env : Environment) (t0 t1 : Nat) (e : Exc)
    (h : p.call args = .error e) :
    (p.run args env t0 t1).fst = .error e ∧
    (p.run args env t0 t1).snd.failed_operations = 1 ∧
    (p.run args env t0 t1).snd.total_execution_time = some (t1 - t0) ∧
    ∃ r : OperationRecord,
      (p.run args env t0 t1).snd.records = [r] ∧
      r.error = some e.msg ∧ r.execution_time = some (t1 - t0) := by
  have hg : p.g args = .error e := h
  refine ⟨?_, ?_, ?_, ?_⟩
  · simp [GeoPipeline.run, hg]
  · simp [GeoPipeline.run, hg, ProvenanceTracker.start_operation,
      ProvenanceTracker.record_error, ProvenanceTracker.complete_operation,
      ProvenanceTracker.finalize, modifyRecordAt,
      ProvenanceTracker.failed_operations]
  · simp [GeoPipeline.run, hg, ProvenanceTracker.start_operation,
      ProvenanceTracker.record_error, ProvenanceTracker.complete_operation,
      ProvenanceTracker.finalize, modifyRecordAt,
      ProvenanceTracker.total_execution_time]
  · refine ⟨{ operation_name := p.cfg.name, operation_type := .pipeline
              parameters := p.summarize args, start_time := t0
              execution_time := some (t1 - t0), error := some e.msg },
      ?_, rfl, rfl⟩
    simp [GeoPipeline.run, hg, ProvenanceTracker.start_operation,
      ProvenanceTracker.record_error, ProvenanceTracker.complete_operation,
      ProvenanceTracker.finalize, modifyRecordAt]

/-- Concrete instance of `run_reraises_and_records_error`: the failing
fixture pipeline re-raises its ValueError and its ledger shows one failed
operation with the elapsed time recorded. -/
theorem run_reraises_and_records_error_witness :
    pipelineFail.call 3 = .error ⟨"ValueError", "Intentional error for testing"⟩ ∧
    ((pipelineFail.run 3 envFixture 10 12).fst =
        .error ⟨"ValueError", "Intentional error for testing"⟩ ∧
      (pipelineFail.run 3 envFixture 10 12).snd.failed_operations = 1 ∧
      (pipelineFail.run 3 envFixture 10 12).snd.total_execution_time = some 2 ∧
      ∃ r : OperationRecord,
        (pipelineFail.run 3 envFixture 10 12).snd.records = [r] ∧
        r.error = some "Intentional error for testing" ∧
        r.execution_time = some 2) :=
  ⟨rfl, run_reraises_and_records_error pipelineFail 3 envFixture 10 12
    ⟨"ValueError", "Intentional error for testing"⟩ rfl⟩

/-- C8: saving a finalized tracker and loading the saved file reconstructs
a tracker with the same pipeline name and the same record count — save
followed by load is a round trip for the ledger. -/
theorem tracker_save_load_round_trip (fs : List (String × ProvenanceDict))
    (path : String) (t : ProvenanceTracker) (_hfin : t.end_time.isSome = true) :
    ∃ t' : ProvenanceTracker,
      ProvenanceTracker.load (t.save fs path) path = some t' ∧
      t'.pipeline_name = t.pipeline_name ∧
      t'.records.length = t.records.length := by
  refine ⟨ProvenanceTracker.load_dict t.to_dict, ?_, rfl, ?_⟩
  · simp [ProvenanceTracker.save, ProvenanceTracker.load]
  · simp [ProvenanceTracker.load_dict, ProvenanceTracker.to_dict]

/-- Concrete instance of `tracker_save_load_round_trip`: the finalized
one-record fixture survives save-then-load with its name and record count
intact. -/
theorem tracker_save_load_round_trip_witness :
    trackerFixture.end_time.isSome = true ∧
    ∃ t' : ProvenanceTracker,
      ProvenanceTracker.load (trackerFixture.save [] "provenance.json")
          "provenance.json" = some t' ∧
      t'.pipeline_name = trackerFixture.pipeline_name ∧
      t'.records.length = trackerFixture.records.length :=
  ⟨rfl, tracker_save_load_round_trip [] "provenance.json" trackerFixture rfl⟩

/-- C9: loading a path that names no existing file fails with
FileNotFoundError — not an unsupported-format error and not an empty
dataset. -/
theorem load_missing_file_raises (fs : List (String × SpatialDataset))
    (path : String) (h : fs.lookup path = none) :
    DataLoader.load fs path = .error (.fileNotFound path) := by
  simp [DataLoader.load, h]

/-- Concrete instance of `load_missing_file_raises`: loading
"nonexistent.geojson" from an empty file system fails with
FileNotFoundError even though the extension is supported. -/
theorem load_missing_file_raises_witness :
    ([] : List (String × SpatialDataset)).lookup "nonexistent.geojson" =
      none ∧
    DataLoader.load [] "nonexistent.geojson" =
      .error (.fileNotFound "nonexistent.geojson") :=
  ⟨rfl, load_missing_file_raises [] "nonexistent.geojson" rfl⟩

/-- C10: saving to a supported format with no provenance ledger writes only
the data artifact: the resulting file system is the input plus the one data
entry, and in particular the sidecar path `<output_path>.provenance.json`
remains absent whenever it was absent before. -/
theorem save_without_provenance_writes_no_sidecar
    (fs : List (String × FileContent)) (d : SpatialDataset) (path : String)
    (now : Nat) (h : supported_formats.contains (extOf path) = true) :
    DataSaver.save fs d path now none =
      .ok ((path, .artifact { dataset := d, embedded_provenance := [] }) :: fs) ∧
    (fs.lookup (path ++ ".provenance.json") = none →
      ((path, FileContent.artifact { dataset := d, embedded_provenance := [] })
          :: fs).lookup (path ++ ".provenance.json") = none) := by
  have hne : path ++ ".provenance.json" ≠ path := by
    intro hEq
    have hlen := congrArg String.length hEq
    rw [String.length_append] at hlen
    have h16 : (".provenance.json" : String).length = 16 := rfl
    rw [h16] at hlen
    omega
  refine ⟨?_, ?_⟩
  · unfold DataSaver.save
    rw [h]
    rfl
  · intro habs
    rw [List.lookup_cons]
    have hbeq : (path ++ ".provenance.json" == path) = false :=
      beq_eq_false_iff_ne.mpr hne
    rw [hbeq]
    exact habs

/-- Concrete instance of `save_without_provenance_writes_no_sidecar`:
saving the geographic point fixture as GeoJSON with no ledger adds only the
data entry and leaves "out.geojson.provenance.json" absent. -/
theorem save_without_provenance_writes_no_sidecar_witness :
    supported_formats.contains (extOf "out.geojson") = true ∧
    (DataSaver.save [] geoPointDataset "out.geojson" 3 none =
      .ok [("out.geojson",
            .artifact { dataset := geoPointDataset, embedded_provenance := [] })] ∧
    (([] : List (String × FileContent)).lookup
        ("out.geojson" ++ ".provenance.json") = none →
      [("out.geojson",
        FileContent.artifact
          { dataset := geoPointDataset, embedded_provenance := [] })].lookup
          ("out.geojson" ++ ".provenance.json") = none)) :=
  ⟨by decide,
   save_without_provenance_writes_no_sidecar [] geoPointDataset "out.geojson"
     3 (by decide)⟩

end Geoflow
